import Mathlib

/-!
Shallow embedding of the zumservice-ha supervisor (index.js and lib/websocket.js).

The JavaScript source is translated function by function:
JS numbers become Int or Nat, JS falsy-defaulting `x || d` becomes explicit
helpers on Option, asynchronous RPC outcomes become explicit parameters
(`Except`/`Option`), and emitted events become values in explicit event lists.
-/

namespace ZumHA

/-- JS `opts.field || dflt` for a boolean option: `false` and `undefined` both
fall through to the default (source: ZumService constructor). -/
def jsOrBool (x : Option Bool) (d : Bool) : Bool :=
  match x with
  | some b => if b then b else d
  | none => d

/-- JS `opts.field || dflt` for a numeric option: `0` and `undefined` both fall
through to the default (source: ZumService constructor). -/
def jsOrNat (x : Option Nat) (d : Nat) : Nat :=
  match x with
  | some n => if n == 0 then d else n
  | none => d

/-- Constructor options relevant to the claims; `none` models an option the
caller did not supply (JS `undefined`). -/
structure CtorOpts where
  pollingInterval : Option Nat
  maxPollingFailures : Option Nat
  enableWebSocket : Option Bool
deriving DecidableEq

/-- Source line `this.enableWebSocket = opts.enableWebSocket || true` of the
ZumService constructor. -/
def ctorEnableWebSocket (o : CtorOpts) : Bool :=
  jsOrBool o.enableWebSocket true

/-- Source line `this.pollingInterval = opts.pollingInterval || 10`. -/
def ctorPollingInterval (o : CtorOpts) : Nat :=
  jsOrNat o.pollingInterval 10

/-- Source line `this.maxPollingFailures = opts.maxPollingFailures || 3`. -/
def ctorMaxPollingFailures (o : CtorOpts) : Nat :=
  jsOrNat o.maxPollingFailures 3

/-- Guard of `_setupWebSocket`: the body runs iff `this.enableWebSocket`. -/
def setupWebSocketRuns (o : CtorOpts) : Bool :=
  ctorEnableWebSocket o

/-! ### Console output handling (`_stdio`) -/

/-- Decides whether `needle` matches `hay` position by position from the head. -/
def headMatches : List Char → List Char → Bool
  | [], _ => true
  | _ :: _, [] => false
  | a :: as, b :: bs => a == b && headMatches as bs

/-- JS `hay.indexOf(needle) !== -1`: `needle` occurs contiguously in `hay`. -/
def containsSub (needle : List Char) : List Char → Bool
  | [] => needle.isEmpty
  | b :: bs => headMatches needle (b :: bs) || containsSub needle bs

/-- Console marker tested first in `_stdio`. -/
def loadingMarker : List Char := "Loading container".toList

/-- Console marker for the unrecoverable wrong-password case in `_stdio`. -/
def pwWrongMarker : List Char := "The password is wrong".toList

/-- Console marker for a loaded container in `_stdio`. -/
def loadedMarker : List Char := "Container loaded".toList

/-- Console marker that starts the health checks in `_stdio`. -/
def finishedMarker : List Char := "Wallet loading is finished".toList

/-- Message emitted on the loading-container marker. -/
def infoLoading : String := "zum-service is loading the wallet container..."

/-- First and last error line of the wrong-password banner. -/
def errBanner : String := "************************************************"

/-- Second error line of the wrong-password banner. -/
def errInvalid : String := "THE PASSWORD FOR THE WALLET CONTAINER IS INVALID"

/-- Third error line of the wrong-password banner. -/
def errHalting : String := "HALTING THE SERVICE DUE TO ERROR"

/-- Message emitted on the container-loaded marker. -/
def infoLoaded : String := "zum-service has loaded the wallet container..."

/-- Message emitted on the loading-finished marker. -/
def infoFinished : String := "Wallet loading has finished"

/-- Effects `_stdio` can perform on one console line: event emissions, the
whole-process `process.exit(1)`, the address lookup and `_startChecks()`. -/
inductive StdioEffect where
  | info (msg : String)
  | error (msg : String)
  | processExit (code : Nat)
  | getAddresses
  | startChecks
deriving DecidableEq

/-- Translation of `ZumService.prototype._stdio`: the if/else-if chain over the
four console markers, in source order. -/
def stdioEffects (line : List Char) : List StdioEffect :=
  if containsSub loadingMarker line then
    [StdioEffect.info infoLoading]
  else if containsSub pwWrongMarker line then
    [StdioEffect.error errBanner, StdioEffect.error errInvalid,
     StdioEffect.error errHalting, StdioEffect.error errBanner,
     StdioEffect.processExit 1]
  else if containsSub loadedMarker line then
    [StdioEffect.info infoLoaded]
  else if containsSub finishedMarker line then
    [StdioEffect.info infoFinished, StdioEffect.getAddresses, StdioEffect.startChecks]
  else
    []

/-- Is this effect an `error` signal emission? -/
def isErrorEffect : StdioEffect → Bool
  | StdioEffect.error _ => true
  | _ => false

/-- Number of `error` signals among the effects of a console line. -/
def errorSignalCount (effects : List StdioEffect) : Nat :=
  (effects.filter isErrorEffect).length

/-- Whether the effects include terminating the whole supervising process. -/
def haltsProcess (effects : List StdioEffect) : Bool :=
  effects.any (fun e =>
    match e with
    | StdioEffect.processExit _ => true
    | _ => false)

/-! ### Scan loop (the `synced` handler installed by the constructor) -/

/-- Batch-size computation of the scan tick, verbatim from the constructor's
interval body, including the unreachable second `cnt > 100` branch. -/
def batchRaw (backlog : Int) : Int :=
  if backlog > 100 then 1000
  else if backlog > 100 then 100
  else if backlog > 10 then 10
  else 1

/-- Modelled from the spec: the step function the spec states for the batch
size (backlog > 100 gives 1000; else backlog > 10 gives 10; else 1), written
from the spec's words to compare against `batchRaw`. -/
def batchSpecStep (backlog : Int) : Int :=
  if backlog > 100 then 1000
  else if backlog > 10 then 10
  else 1

/-- Source clamp `if ((height + cnt) > this.knownBlockCount) cnt =
(this.knownBlockCount - height - 1)`. -/
def clampBatch (known height cnt : Int) : Int :=
  if height + cnt > known then known - height - 1 else cnt

/-- One scan-tick decision: `none` is the early return when
`height >= this.knownBlockCount`; otherwise the start block and the clamped
batch size the tick will use. -/
def scanTick (known height : Int) : Option (Int × Int) :=
  if height ≥ known then none
  else some (height, clampBatch known height (batchRaw (known - height)))

/-- Source lines `var height = this.db.get('scanHeight'); if (!height) height
= 1`: the persisted cursor read with its falsy default. -/
def readHeight (stored : Option Int) : Int :=
  match stored with
  | none => 1
  | some h => if h == 0 then 1 else h

/-- Events of one scan tick: the `scan` emission, per-result `transaction`
emissions, the `db.put('scanHeight', ...)` write and the `error` emission. -/
inductive ScanEv where
  | scanRange (fromBlock toBlock : Int)
  | transaction (t : Nat)
  | putCursor (h : Int)
  | errorSig
deriving DecidableEq

/-- One scan tick over the persisted cursor: `outcome` is the result of the
`getTransactions` promise (`some txs` resolves, `none` rejects). Returns the
stored cursor after the tick and the events in emission order. -/
def scanStep (known : Int) (stored : Option Int) (outcome : Option (List Nat)) :
    Option Int × List ScanEv :=
  let height := readHeight stored
  match scanTick known height with
  | none => (stored, [])
  | some (f, c) =>
    match outcome with
    | some txs =>
      (some (f + c),
       ScanEv.scanRange f (f + c) :: (txs.map ScanEv.transaction ++ [ScanEv.putCursor (f + c)]))
    | none => (stored, [ScanEv.scanRange f (f + c), ScanEv.errorSig])

/-- A lifetime of scan ticks: each step carries the known block count at that
tick and the fetch outcome; the stored cursor threads through. -/
def runScan (steps : List (Int × Option (List Nat))) (stored : Option Int) : Option Int :=
  match steps with
  | [] => stored
  | s :: rest => runScan rest (scanStep s.1 stored s.2).1

/-! ### Polling cycle (`_startChecks`, `_triggerUp`, `_triggerDown`) -/

/-- Fields of the `getStatus` reply the polling cycle reads. -/
structure StatusReply where
  blockCount : Int
  knownBlockCount : Int
deriving DecidableEq

/-- The mutable per-process state the polling cycle touches. -/
structure MonitorState where
  synced : Bool
  knownBlockCount : Int
  isRunning : Bool
  triggerPending : Bool
deriving DecidableEq

/-- Events a polling cycle can emit. -/
inductive PollEv where
  | statusSig (r : StatusReply)
  | syncedSig
  | aliveSig
  | errorSig
  | downArm
deriving DecidableEq

/-- Successful polling cycle, verbatim from `_startChecks`: emit `status`,
assign `this.knownBlockCount = result.blockCount`, run the synced/unsynced
branch, then `_triggerUp` (alive edge plus clearing the down trigger). -/
def pollSuccess (s : MonitorState) (r : StatusReply) : MonitorState × List PollEv :=
  let evs := [PollEv.statusSig r]
  let s := { s with knownBlockCount := r.blockCount }
  let (s, evs) :=
    if r.knownBlockCount - r.blockCount > 1 then
      ({ s with synced := false }, evs)
    else if r.blockCount + 1 == r.knownBlockCount || r.blockCount == r.knownBlockCount then
      if !s.synced then ({ s with synced := true }, evs ++ [PollEv.syncedSig])
      else (s, evs)
    else (s, evs)
  let (s, evs) :=
    if !s.isRunning then ({ s with isRunning := true }, evs ++ [PollEv.aliveSig])
    else (s, evs)
  ({ s with triggerPending := false }, evs)

/-- Failed polling cycle: emit `error`, then `_triggerDown` arms the
down-debounce timer only when none is pending. -/
def pollFailure (s : MonitorState) : MonitorState × List PollEv :=
  if !s.triggerPending then
    ({ s with triggerPending := true }, [PollEv.errorSig, PollEv.downArm])
  else
    (s, [PollEv.errorSig])

/-- Number of `synced` emissions in a cycle's event list. -/
def syncedCount (evs : List PollEv) : Nat :=
  (evs.filter (· == PollEv.syncedSig)).length

/-- The scan tick as gated by the monitor state: the scan loop reads
`this.knownBlockCount` for both its gate and its backlog. -/
def scanTickOfState (s : MonitorState) (stored : Option Int) : Option (Int × Int) :=
  scanTick s.knownBlockCount (readHeight stored)

/-! ### Timed model of the down debounce

`setInterval(..., this.pollingInterval * 1000)` schedules the polls, while
`_triggerDown` arms `setTimeout(..., this.pollingInterval *
this.maxPollingFailures)`; both delays are milliseconds to the runtime. Polls
run at times `k * pollPeriodMs`; an armed timeout fires at its scheduled time
unless a successful poll cleared it first. After the timeout fires, the
`this.trigger` variable still holds the handle, so `_triggerDown`'s
`if (!this.trigger)` guard keeps blocking re-arms until a success clears it. -/

/-- Milliseconds between polls: `this.pollingInterval * 1000`. -/
def pollPeriodMs (pollingInterval : Nat) : Nat := pollingInterval * 1000

/-- Milliseconds of the down-debounce timeout as the source computes it:
`this.pollingInterval * this.maxPollingFailures`, with no unit conversion. -/
def debounceDelayMs (pollingInterval maxPollingFailures : Nat) : Nat :=
  pollingInterval * maxPollingFailures

/-- The `this.trigger` slot: scheduled fire time, and whether it already
fired (the variable stays truthy after firing). -/
structure TriggerState where
  fireAt : Option Nat
  fired : Bool
deriving DecidableEq

/-- Before handling an event at time `now`, an armed, not-yet-fired timeout
scheduled strictly earlier fires and emits `down`; the returned list holds the
times at which `down` fired. -/
def firePhase (now : Nat) (ts : TriggerState) : TriggerState × List Nat :=
  match ts.fireAt with
  | some ft =>
    if ts.fired = false ∧ ft < now then ({ ts with fired := true }, [ft])
    else (ts, [])
  | none => (ts, [])

/-- One poll at time `now`: run any due timeout first, then on success clear
the trigger (`_triggerUp`), on failure arm it only if the slot is empty
(`_triggerDown`). -/
def pollAt (delay now : Nat) (ok : Bool) (ts : TriggerState) : TriggerState × List Nat :=
  let (ts, downs) := firePhase now ts
  if ok then (⟨none, false⟩, downs)
  else
    match ts.fireAt with
    | none => ({ fireAt := some (now + delay), fired := false }, downs)
    | some _ => (ts, downs)

/-- Run the polls of `outcomes` at times `k * period`, `k` counting from the
given start; after the last poll, a still-armed unfired timeout eventually
fires (no later event ever clears it). -/
def runPollsFrom (delay period : Nat) : Nat → List Bool → TriggerState → List Nat
  | _, [], ts =>
    (match ts.fireAt with
     | some ft => if ts.fired = false then [ft] else []
     | none => [])
  | k, ok :: rest, ts =>
    let (ts, downs) := pollAt delay (k * period) ok ts
    downs ++ runPollsFrom delay period (k + 1) rest ts

/-- Times at which `down` fires for a given configuration and sequence of poll
outcomes, starting from an empty trigger slot. -/
def downTimes (pollingInterval maxPollingFailures : Nat) (outcomes : List Bool) : List Nat :=
  runPollsFrom (debounceDelayMs pollingInterval maxPollingFailures)
    (pollPeriodMs pollingInterval) 1 outcomes ⟨none, false⟩

/-! ### WebSocket fan-out (`_setupWebSocket` and `lib/websocket.js`) -/

/-- Payloads carried by Event Bus signals and broadcast messages. `unitP`
models an absent (undefined) data value; `emptyObjP` the empty object the
broadcast defaulting substitutes for falsy data. -/
inductive Payload where
  | unitP
  | strP (s : String)
  | intP (n : Int)
  | statusP (r : StatusReply)
  | rangeP (fromBlock toBlock : Int)
  | txP (t : Nat)
  | emptyObjP
deriving DecidableEq

/-- JS truthiness test on a payload: undefined, the empty string and zero are
falsy; object values (status, range, transaction, the empty object) are
truthy. -/
def jsFalsyPayload : Payload → Bool
  | .unitP => true
  | .strP s => s == ""
  | .intP n => n == 0
  | .statusP _ => false
  | .rangeP _ _ => false
  | .txP _ => false
  | .emptyObjP => false

/-- The twelve Event Bus signals the fan-out handlers subscribe to. -/
inductive BusSig where
  | alive
  | close (exitcode : Int)
  | dataSig (d : String)
  | down
  | errorSig (m : String)
  | info (m : String)
  | save
  | scanSig (fromBlock toBlock : Int)
  | statusSig (r : StatusReply)
  | synced
  | transaction (t : Nat)
  | warning (m : String)
deriving DecidableEq

/-- The event name under which each signal is emitted on the Event Bus. -/
def busName : BusSig → String
  | .alive => "alive"
  | .close _ => "close"
  | .dataSig _ => "data"
  | .down => "down"
  | .errorSig _ => "error"
  | .info _ => "info"
  | .save => "save"
  | .scanSig _ _ => "scan"
  | .statusSig _ => "status"
  | .synced => "synced"
  | .transaction _ => "transaction"
  | .warning _ => "warning"

/-- The payload each signal carries on the Event Bus (`unitP` for signals
emitted with no argument). -/
def busPayload : BusSig → Payload
  | .alive => .unitP
  | .close e => .intP e
  | .dataSig d => .strP d
  | .down => .unitP
  | .errorSig m => .strP m
  | .info m => .strP m
  | .save => .unitP
  | .scanSig a b => .rangeP a b
  | .statusSig r => .statusP r
  | .synced => .unitP
  | .transaction t => .txP t
  | .warning m => .strP m

/-- A broadcast message as the fan-out handlers pass it to `broadcast`:
the wire event name and its data, `unitP` when the handler supplied none
(the defaulting to the empty object happens inside `broadcast` itself). -/
structure BMsg where
  event : String
  payload : Payload
deriving DecidableEq

/-- The message each `this.on(..., broadcast(...))` handler registered in
`_setupWebSocket` builds for a signal, verbatim from the source: note the
`warning` handler broadcasts under the event name `info`. -/
def fanoutMsg : BusSig → BMsg
  | .alive => ⟨"alive", .unitP⟩
  | .close e => ⟨"close", .intP e⟩
  | .dataSig d => ⟨"data", .strP d⟩
  | .down => ⟨"down", .unitP⟩
  | .errorSig m => ⟨"error", .strP m⟩
  | .info m => ⟨"info", .strP m⟩
  | .save => ⟨"save", .unitP⟩
  | .scanSig a b => ⟨"scan", .rangeP a b⟩
  | .statusSig r => ⟨"status", .statusP r⟩
  | .synced => ⟨"synced", .unitP⟩
  | .transaction t => ⟨"transaction", .txP t⟩
  | .warning m => ⟨"info", .strP m⟩

/-- Modelled from the spec: the event name the amended fan-out claim states,
namely the bus name except that `warning` goes out as `info`. -/
def fanoutNameSpec : BusSig → String
  | .warning _ => "info"
  | s => busName s

/-- Source line `opts.data = opts.data || ` empty object of
`WebSocket.prototype.broadcast`: any falsy data value is replaced by the
empty object before sending. -/
def dataOrEmpty (p : Payload) : Payload :=
  if jsFalsyPayload p then Payload.emptyObjP else p

/-- `WebSocket.prototype.broadcast` of lib/websocket.js: the event name
defaults through `opts.event || false` (a falsy event aborts), the data
defaults through `opts.data || ` empty object, then the message goes to every
entry of `permittedClients` (the authenticated set) and to no one else. -/
def broadcast (permittedClients : List Nat) (msg : BMsg) : List (Nat × BMsg) :=
  let d := dataOrEmpty msg.payload
  if msg.event == "" then []
  else permittedClients.map (fun cid => (cid, ⟨msg.event, d⟩))

/-! ### start() and `_buildargs` -/

/-- Configuration fields `_buildargs` reads; `none` models a field the
constructor defaulted to JS `false`. -/
structure WalletCfg where
  config : Option String
  bindAddress : String
  bindPort : Nat
  rpcPassword : Option String
  rpcLegacySecurity : Bool
  containerFile : Option String
  containerPassword : Option String
  logFile : Option String
  logLevel : Nat
  syncFromZero : Bool
  daemonRpcAddress : Option String
  daemonRpcPort : Option Nat
deriving DecidableEq

/-- Events `start` and `_buildargs` can emit, plus the spawn itself. -/
inductive StartEv where
  | infoSig (m : String)
  | errorSig (m : String)
  | warningSig (m : String)
  | spawn
  | startSig
deriving DecidableEq

/-- Error message for a missing RPC credential. -/
def errNoCred : String :=
  "Cannot start without either an RPC password or RPC Legacy Security Enabled"

/-- Error message for an undefined container file. -/
def errNoContainer : String := "Cannot start without defining a container file"

/-- Error message for a container file missing on disk. -/
def errNoContainerFile : String :=
  "Wallet container file does not exist. Please check your path and try again"

/-- Warning for a missing container password. -/
def warnNoContainerPw : String :=
  "No wallet container password defined. This may work... but you really should use a password"

/-- Info message emitted at the top of `start()`. -/
def infoAttempt : String := "Attempting to start zum-service..."

/-- Error `start()` emits when `_buildargs` returned false. -/
def errCouldNotBuild : String :=
  "Could not build the zum-service arguments... please check your config and try again"

/-- The container-password branch of `_buildargs`: the emitted warning when no
password is configured (no events otherwise). -/
def containerWarn (c : WalletCfg) : List StartEv :=
  match c.containerPassword with
  | none => [StartEv.warningSig warnNoContainerPw]
  | some _ => []

/-- Argument segments appended after the container-file check, in source
order: container file and password, log file and level, sync-from-zero flag,
daemon address and port. -/
def argsTail (c : WalletCfg) (f : String) (args : List String) : List String :=
  let args := args ++ ["--container-file", f]
  let args :=
    match c.containerPassword with
    | none => args
    | some pw => args ++ ["--container-password", pw]
  let args :=
    match c.logFile with
    | some lf => args ++ ["--log-file", lf]
    | none => args
  let args := args ++ ["--log-level", toString c.logLevel]
  let args := if c.syncFromZero then args ++ ["--SYNC_FROM_ZERO"] else args
  let args :=
    match c.daemonRpcAddress with
    | some a => args ++ ["--daemon-address", a]
    | none => args
  match c.daemonRpcPort with
  | some p => args ++ ["--daemon-port", toString p]
  | none => args

/-- Tail of `_buildargs` after the credential branch: the two container-file
validation early-returns, then the remaining argument segments. -/
def buildargsAfterCred (fileExists : String → Bool) (c : WalletCfg) (args : List String) :
    Option (List String) × List StartEv :=
  match c.containerFile with
  | none => (none, [StartEv.errorSig errNoContainer])
  | some f =>
    if fileExists f then (some (argsTail c f args), containerWarn c)
    else (none, [StartEv.errorSig errNoContainerFile])

/-- Argument segments built before the credential branch: optional config
file, then bind address and port. -/
def argsHead (c : WalletCfg) : List String :=
  let args : List String := []
  let args :=
    match c.config with
    | some cf => args ++ ["--config", cf]
    | none => args
  args ++ ["--bind-address", c.bindAddress, "--bind-port", toString c.bindPort]

/-- `ZumService.prototype._buildargs`: argument construction with its three
validation early-returns (`fileExists` stands for `fs.existsSync`). -/
def buildargs (fileExists : String → Bool) (c : WalletCfg) :
    Option (List String) × List StartEv :=
  match c.rpcPassword with
  | some p => buildargsAfterCred fileExists c (argsHead c ++ ["--rpc-password", p])
  | none =>
    if c.rpcLegacySecurity then
      buildargsAfterCred fileExists c (argsHead c ++ ["--rpc-legacy-security"])
    else (none, [StartEv.errorSig errNoCred])

/-- `ZumService.prototype.start`: emits the attempt info, builds the
arguments, and either returns false after the generic error or spawns the
child and emits `start`. The Bool records whether the child was spawned. -/
def start (fileExists : String → Bool) (c : WalletCfg) : Bool × List StartEv :=
  match buildargs fileExists c with
  | (none, bevs) =>
    (false, StartEv.infoSig infoAttempt :: (bevs ++ [StartEv.errorSig errCouldNotBuild]))
  | (some _, bevs) =>
    (true, StartEv.infoSig infoAttempt :: (bevs ++ [StartEv.spawn, StartEv.startSig]))

/-- Number of `error` signals in a start event list. -/
def startErrorCount (evs : List StartEv) : Nat :=
  (evs.filter (fun e =>
    match e with
    | StartEv.errorSig _ => true
    | _ => false)).length

/-! ### Gateway request dispatch (`_registerWebSocketClientEvents`) -/

/-- Source line `data.nonce = data.nonce || nonce()`: a missing or falsy
(zero) caller nonce is replaced by a freshly generated one. -/
def effNonce (reqNonce : Option Int) (fresh : Int) : Int :=
  match reqNonce with
  | some n => if n == 0 then fresh else n
  | none => fresh

/-- Body of a Gateway response: `data` on promise resolution, `error` on
rejection. -/
inductive RespBody where
  | dataB (p : Payload)
  | errorB (e : String)
deriving DecidableEq

/-- A Gateway response as sent back on the requesting socket. -/
structure Resp where
  nonce : Int
  body : RespBody
deriving DecidableEq

/-- One Gateway request: the parsed payload's nonce field (`none` also covers
an unparsable payload, which becomes the empty object), the fresh nonce the
generator would yield, and the RPC outcome. Exactly one response is produced. -/
def handleRequest (reqNonce : Option Int) (fresh : Int) (outcome : Except String Payload) :
    Resp :=
  let n := effNonce reqNonce fresh
  match outcome with
  | Except.ok r => ⟨n, RespBody.dataB r⟩
  | Except.error e => ⟨n, RespBody.errorB e⟩

/-- The constructor's `this.on('down', ...)` handler: mark not-alive. -/
def downHandler (s : MonitorState) : MonitorState :=
  { s with isRunning := false }

/-! ### Helper lemmas -/

/-- Case analysis of the batch step function, dead branch folded away. -/
theorem batchRaw_cases (b : Int) :
    (100 < b ∧ batchRaw b = 1000) ∨ (10 < b ∧ b ≤ 100 ∧ batchRaw b = 10) ∨
    (b ≤ 10 ∧ batchRaw b = 1) := by
  unfold batchRaw
  split_ifs with h1 h2 <;> [exact Or.inl ⟨h1, rfl⟩;
    exact Or.inr (Or.inl ⟨h2, by omega, rfl⟩); exact Or.inr (Or.inr ⟨by omega, rfl⟩)]

/-- What a non-trivial scan tick guarantees: the start block is the cursor,
the batch is at least one block, and the tick stays within the known tip. -/
theorem scanTick_spec (known height f c : Int) (h : scanTick known height = some (f, c)) :
    f = height ∧ 1 ≤ c ∧ height + c ≤ known ∧ height < known := by
  unfold scanTick at h
  split at h
  · exact absurd h (by simp)
  · rename_i hge
    rw [Option.some.injEq, Prod.mk.injEq] at h
    obtain ⟨hf, hc⟩ := h
    unfold clampBatch at hc
    rcases batchRaw_cases (known - height) with hb | hb | hb <;> (split at hc <;> omega)

/-- The cursor read back after a write. -/
theorem readHeight_some (x : Int) : readHeight (some x) = if x = 0 then 1 else x := by
  simp [readHeight]

/-- A scan tick never moves the stored cursor backwards. -/
theorem scanStep_mono (known : Int) (stored : Option Int) (outcome : Option (List Nat)) :
    readHeight stored ≤ readHeight (scanStep known stored outcome).1 := by
  simp only [scanStep]
  cases htick : scanTick known (readHeight stored) with
  | none => simp
  | some p =>
    obtain ⟨f, c⟩ := p
    have hs := scanTick_spec known (readHeight stored) f c htick
    cases outcome with
    | none => simp
    | some txs =>
      dsimp only
      rw [readHeight_some]
      split_ifs <;> omega

/-- Across any sequence of ticks, the stored cursor never decreases. -/
theorem runScan_mono (steps : List (Int × Option (List Nat))) (stored : Option Int) :
    readHeight stored ≤ readHeight (runScan steps stored) := by
  induction steps generalizing stored with
  | nil => simp [runScan]
  | cons s rest ih =>
    have h1 := scanStep_mono s.1 stored s.2
    have h2 := ih (scanStep s.1 stored s.2).1
    simp only [runScan]
    omega

/-! ### Claim theorems -/

/-- Claim C1 (code bug): the down debounce is armed for
`pollingInterval × maxPollingFailures` raw milliseconds while polls are
`pollingInterval × 1000` milliseconds apart, so with the default configuration
(pollingInterval 10, maxPollingFailures 3) a single failed poll at t = 10000ms
arms a 30ms timer that fires at t = 10030ms, before the second poll runs:
`down` fires after N = 1 consecutive failures, not N ≥ 3 as claimed. The down
handler does mark the process not-alive, and only one `down` fires. -/
theorem c1_down_fires_before_second_poll :
    downTimes 10 3 [false, false, false] = [10030] ∧
    debounceDelayMs 10 3 < pollPeriodMs 10 ∧
    10030 < 2 * pollPeriodMs 10 ∧
    ctorPollingInterval ⟨none, none, none⟩ = 10 ∧
    ctorMaxPollingFailures ⟨none, none, none⟩ = 3 ∧
    (pollFailure ⟨false, 0, false, false⟩).2 = [PollEv.errorSig, PollEv.downArm] ∧
    (pollFailure ⟨false, 0, false, true⟩).2 = [PollEv.errorSig] ∧
    (downHandler ⟨true, 7, true, true⟩).isRunning = false := by decide

/-- Claim C2 counterexample: on the wrong-password console line, `_stdio`
emits four `error` signals, not three. -/
theorem c2_counterexample :
    containsSub pwWrongMarker pwWrongMarker = true ∧
    errorSignalCount (stdioEffects pwWrongMarker) ≠ 3 := by decide

/-- Claim C2 (amended): for every console line containing the wrong-password
marker (and not the earlier-tested loading marker), the supervisor emits
exactly four `error` signals and then terminates the entire supervising
process, without retrying. -/
theorem c2_wrong_password_four_errors (line : List Char)
    (hpw : containsSub pwWrongMarker line = true)
    (hld : containsSub loadingMarker line = false) :
    stdioEffects line =
      [StdioEffect.error errBanner, StdioEffect.error errInvalid,
       StdioEffect.error errHalting, StdioEffect.error errBanner,
       StdioEffect.processExit 1] ∧
    errorSignalCount (stdioEffects line) = 4 ∧
    haltsProcess (stdioEffects line) = true := by
  have h : stdioEffects line =
      [StdioEffect.error errBanner, StdioEffect.error errInvalid,
       StdioEffect.error errHalting, StdioEffect.error errBanner,
       StdioEffect.processExit 1] := by
    simp [stdioEffects, hpw, hld]
  refine ⟨h, ?_, ?_⟩ <;> rw [h] <;> decide

/-- Witness for C2 at the literal marker line. -/
theorem c2_wrong_password_four_errors_witness :
    stdioEffects pwWrongMarker =
      [StdioEffect.error errBanner, StdioEffect.error errInvalid,
       StdioEffect.error errHalting, StdioEffect.error errBanner,
       StdioEffect.processExit 1] ∧
    errorSignalCount (stdioEffects pwWrongMarker) = 4 ∧
    haltsProcess (stdioEffects pwWrongMarker) = true :=
  c2_wrong_password_four_errors pwWrongMarker (by decide) (by decide)

/-- Claim C4: the scan batch is the fixed step function of the backlog (the
source's dead `cnt > 100` branch included), the tick never reaches past the
known tip, backlogs 5, 50, 500 give step batches 1, 10, 1000 each clamped to
not exceed the backlog, and the tick is a no-op at or above the tip. -/
theorem c4_scan_batch :
    (∀ b : Int, batchRaw b = batchSpecStep b) ∧
    (∀ known height : Int, known ≤ height → scanTick known height = none) ∧
    (∀ known height f c : Int, scanTick known height = some (f, c) →
      f = height ∧ f + c ≤ known) ∧
    batchRaw 5 = 1 ∧ batchRaw 50 = 10 ∧ batchRaw 500 = 1000 ∧
    scanTick 106 101 = some (101, 1) ∧ scanTick 151 101 = some (101, 10) ∧
    scanTick 601 101 = some (101, 499) ∧
    (1 : Int) ≤ 5 ∧ (10 : Int) ≤ 50 ∧ (499 : Int) ≤ 500 := by
  refine ⟨?_, ?_, ?_, by decide, by decide, by decide, by decide, by decide, by decide,
    by decide, by decide, by decide⟩
  · intro b
    rcases batchRaw_cases b with hb | hb | hb <;> (unfold batchSpecStep; split_ifs <;> omega)
  · intro known height hle
    unfold scanTick
    rw [if_pos (by omega)]
  · intro known height f c h
    have hs := scanTick_spec known height f c h
    omega

/-- Witness for C4 at concrete ticks. -/
theorem c4_scan_batch_witness :
    scanTick 100 100 = none ∧ ((101 : Int) = 101 ∧ (101 : Int) + 499 ≤ 601) :=
  ⟨c4_scan_batch.2.1 100 100 (le_refl 100),
   c4_scan_batch.2.2.1 601 101 101 499 (by decide)⟩

/-- Claim C10: the constructed service always has the WebSocket gateway
enabled — `opts.enableWebSocket || true` is true for every options object,
including one that explicitly passes false, so `_setupWebSocket` always runs. -/
theorem c10_enableWebSocket_always_true (o : CtorOpts) :
    ctorEnableWebSocket o = true ∧ setupWebSocketRuns o = true := by
  have h : ctorEnableWebSocket o = true := by
    unfold ctorEnableWebSocket jsOrBool
    rcases o.enableWebSocket with _ | b
    · rfl
    · cases b <;> rfl
  exact ⟨h, h⟩

/-- Sample warning text for the fan-out counterexample. -/
def wDemoMsg : String := "sample warning"

/-- Claim C3 counterexample: the `warning` handler of `_setupWebSocket`
broadcasts under the event name `info`, so the broadcast is not verbatim. -/
theorem c3_counterexample :
    busName (BusSig.warning wDemoMsg) = "warning" ∧
    (fanoutMsg (BusSig.warning wDemoMsg)).event = "info" ∧
    (fanoutMsg (BusSig.warning wDemoMsg)).event ≠ busName (BusSig.warning wDemoMsg) := by
  decide

/-- Claim C3 (amended): every Event Bus signal is broadcast to exactly the
authenticated connections (unauthenticated sockets are not in
`permittedClients` and receive nothing from `broadcast`), under the same
event name except `warning`, which goes out as `info`; the handler passes the
bus payload verbatim, but broadcast's own `opts.data || ` empty-object
defaulting delivers the empty object in place of a falsy payload — unchanged
delivery holds only for truthy payloads, e.g. a status snapshot but not a
zero `close` exit code. -/
theorem c3_fanout_broadcast (sig : BusSig) (permittedClients : List Nat) :
    broadcast permittedClients (fanoutMsg sig) =
      permittedClients.map (fun cid =>
        (cid, ⟨fanoutNameSpec sig, dataOrEmpty (busPayload sig)⟩)) ∧
    (fanoutMsg sig).payload = busPayload sig ∧
    (fanoutMsg sig).event = fanoutNameSpec sig ∧
    dataOrEmpty (busPayload (BusSig.close 0)) = Payload.emptyObjP ∧
    dataOrEmpty (busPayload (BusSig.statusSig ⟨3, 9⟩)) = Payload.statusP ⟨3, 9⟩ := by
  refine ⟨?_, ?_, ?_, by decide, by decide⟩ <;>
    cases sig <;>
      simp [broadcast, dataOrEmpty, jsFalsyPayload, fanoutMsg, busPayload,
        fanoutNameSpec, busName]

/-- Claim C5: on a successful scan step the cursor is persisted as
`from + batch` with the `put` after every `transaction` of the batch; a failed
step leaves the stored cursor untouched; and the cursor never decreases, per
step or across a whole lifetime of ticks. -/
theorem c5_scan_cursor :
    (∀ (known : Int) (stored : Option Int) (outcome : Option (List Nat)),
      readHeight stored ≤ readHeight (scanStep known stored outcome).1) ∧
    (∀ (known : Int) (stored : Option Int) (txs : List Nat) (f c : Int),
      scanTick known (readHeight stored) = some (f, c) →
      scanStep known stored (some txs) =
        (some (f + c),
         ScanEv.scanRange f (f + c) :: (txs.map ScanEv.transaction ++ [ScanEv.putCursor (f + c)]))) ∧
    (∀ (known : Int) (stored : Option Int),
      (scanStep known stored none).1 = stored) ∧
    (∀ (steps : List (Int × Option (List Nat))) (stored : Option Int),
      readHeight stored ≤ readHeight (runScan steps stored)) := by
  refine ⟨scanStep_mono, ?_, ?_, runScan_mono⟩
  · intro known stored txs f c h
    simp only [scanStep]
    rw [h]
  · intro known stored
    simp only [scanStep]
    cases htick : scanTick known (readHeight stored) <;> simp

/-- Witness for C5 at a concrete successful step. -/
theorem c5_scan_cursor_witness :
    scanStep 10 (some 3) (some [7]) =
      (some 4, [ScanEv.scanRange 3 4, ScanEv.transaction 7, ScanEv.putCursor 4]) :=
  c5_scan_cursor.2.1 10 (some 3) [7] 3 1 (by decide)

/-- Claim C6: the `synced` event is edge-triggered — when the reply satisfies
`blockCount ∈ {knownBlockCount, knownBlockCount − 1}` and the state was not
already synced, the cycle emits exactly one `synced` and leaves the state
synced; while the state is synced, no cycle emits `synced`, and a cycle whose
reply again satisfies the condition keeps the state synced. -/
theorem c6_synced_edge_triggered (s : MonitorState) (r : StatusReply) :
    ((r.blockCount = r.knownBlockCount ∨ r.blockCount + 1 = r.knownBlockCount) →
      s.synced = false →
      syncedCount (pollSuccess s r).2 = 1 ∧ (pollSuccess s r).1.synced = true) ∧
    (s.synced = true →
      syncedCount (pollSuccess s r).2 = 0 ∧
      ((r.blockCount = r.knownBlockCount ∨ r.blockCount + 1 = r.knownBlockCount) →
        (pollSuccess s r).1.synced = true)) := by
  constructor
  · intro hc hsync
    have h1 : ¬ (r.knownBlockCount - r.blockCount > 1) := by omega
    have h2 : (r.blockCount + 1 == r.knownBlockCount || r.blockCount == r.knownBlockCount) = true := by
      rcases hc with h | h <;> (simp [beq_iff_eq]; omega)
    simp only [pollSuccess, syncedCount, h1, h2, hsync]
    split_ifs <;> simp_all
  · intro hsync
    constructor
    · simp only [pollSuccess, hsync]
      split_ifs <;> simp_all [syncedCount]
    · intro hc
      have h1 : ¬ (r.knownBlockCount - r.blockCount > 1) := by omega
      have h2 : (r.blockCount + 1 == r.knownBlockCount || r.blockCount == r.knownBlockCount) = true := by
        rcases hc with h | h <;> (simp [beq_iff_eq]; omega)
      simp only [pollSuccess, h1, hsync, h2]
      split_ifs <;> simp_all

/-- Unsynced, not-yet-alive initial monitor state. -/
def s0 : MonitorState := ⟨false, 0, false, false⟩

/-- A status reply at the tip, used for the C6 witness. -/
def rTip : StatusReply := ⟨10, 10⟩

/-- Witness for C6 at a concrete unsynced state and at-tip reply. -/
theorem c6_synced_edge_triggered_witness :
    syncedCount (pollSuccess s0 rTip).2 = 1 ∧ (pollSuccess s0 rTip).1.synced = true :=
  (c6_synced_edge_triggered s0 rTip).1 (Or.inl rfl) rfl

/-- A reply whose blockCount and knownBlockCount differ, for C7. -/
def rGap : StatusReply := ⟨5, 9⟩

/-- Claim C7 counterexample: the polling cycle assigns
`this.knownBlockCount = result.blockCount`, not the reply's `knownBlockCount`
field — on the reply (blockCount 5, knownBlockCount 9) the state holds 5. -/
theorem c7_counterexample :
    (pollSuccess s0 rGap).1.knownBlockCount ≠ rGap.knownBlockCount ∧
    (pollSuccess s0 rGap).1.knownBlockCount = rGap.blockCount := by decide

/-- Claim C7 (amended): every successful polling cycle updates
`Process State.knownBlockCount` from the reply's `blockCount` field, so the
scan loop's gate and backlog are computed against the wallet's own block count
as reported by the reply. -/
theorem c7_known_from_blockCount (s : MonitorState) (r : StatusReply) (stored : Option Int) :
    (pollSuccess s r).1.knownBlockCount = r.blockCount ∧
    scanTickOfState (pollSuccess s r).1 stored = scanTick r.blockCount (readHeight stored) := by
  have h : (pollSuccess s r).1.knownBlockCount = r.blockCount := by
    simp only [pollSuccess]
    split_ifs <;> simp
  exact ⟨h, by rw [scanTickOfState, h]⟩

/-- A one-file filesystem for concrete starts: only the demo container file
exists. -/
def fsDemo : String → Bool := fun f => f == "container.walletd"

/-- A configuration that sets both an RPC password and the legacy-security
flag, with an existing container file. -/
def cfgBoth : WalletCfg :=
  ⟨none, "127.0.0.1", 17070, some "changeme", true, some "container.walletd",
   none, none, 4, false, some "127.0.0.1", some 17935⟩

/-- Summary of the container-file half of `_buildargs`: it succeeds iff the
container file is defined and exists; one `error` exactly on failure; it never
emits a spawn marker. -/
theorem afterCred_summary (fe : String → Bool) (c : WalletCfg) (args : List String) :
    ((buildargsAfterCred fe c args).1.isSome = true ↔
      ∃ f, c.containerFile = some f ∧ fe f = true) ∧
    startErrorCount (buildargsAfterCred fe c args).2 =
      (if (buildargsAfterCred fe c args).1.isSome then 0 else 1) ∧
    StartEv.spawn ∉ (buildargsAfterCred fe c args).2 := by
  rcases hcf : c.containerFile with _ | f
  · simp [buildargsAfterCred, hcf, startErrorCount]
  · by_cases hfe : fe f
    · cases hcp : c.containerPassword <;>
        simp [buildargsAfterCred, hcf, hfe, startErrorCount, containerWarn, hcp]
    · simp [buildargsAfterCred, hcf, hfe, startErrorCount]

/-- Summary of `_buildargs`: success iff a credential mode is available (the
password takes precedence) and the container file is defined and exists; one
`error` exactly on failure; no spawn marker. -/
theorem buildargs_summary (fe : String → Bool) (c : WalletCfg) :
    ((buildargs fe c).1.isSome = true ↔
      ((c.rpcPassword.isSome = true ∨ c.rpcLegacySecurity = true) ∧
       ∃ f, c.containerFile = some f ∧ fe f = true)) ∧
    startErrorCount (buildargs fe c).2 =
      (if (buildargs fe c).1.isSome then 0 else 1) ∧
    StartEv.spawn ∉ (buildargs fe c).2 := by
  rcases hrp : c.rpcPassword with _ | p
  · by_cases hrl : c.rpcLegacySecurity
    · have h := afterCred_summary fe c (argsHead c ++ ["--rpc-legacy-security"])
      simp only [buildargs, hrp, hrl, if_pos]
      refine ⟨?_, h.2.1, h.2.2⟩
      rw [h.1]
      simp [hrl]
    · simp [buildargs, hrp, hrl, startErrorCount]
  · have h := afterCred_summary fe c (argsHead c ++ ["--rpc-password", p])
    simp only [buildargs, hrp]
    refine ⟨?_, h.2.1, h.2.2⟩
    rw [h.1]
    simp

/-- Claim C8 counterexample: a configuration carrying both an RPC password and
the legacy-security flag violates the claimed exactly-one rule, yet `start`
spawns the child without emitting any `error`. -/
theorem c8_counterexample :
    cfgBoth.rpcPassword.isSome = true ∧ cfgBoth.rpcLegacySecurity = true ∧
    (start fsDemo cfgBoth).1 = true ∧
    startErrorCount (start fsDemo cfgBoth).2 = 0 := by decide

/-- Claim C8 (amended): `start()` spawns iff at least one of an RPC password
or the legacy-no-password mode is configured (the password takes precedence
when both are set) and the container file is defined and exists; every
configuration violating these rules makes `start()` emit `error` signals and
return without spawning. -/
theorem c8_start_validation (fe : String → Bool) (c : WalletCfg) :
    ((start fe c).1 = true ↔
      ((c.rpcPassword.isSome = true ∨ c.rpcLegacySecurity = true) ∧
       ∃ f, c.containerFile = some f ∧ fe f = true)) ∧
    (StartEv.spawn ∈ (start fe c).2 ↔ (start fe c).1 = true) ∧
    startErrorCount (start fe c).2 = (if (start fe c).1 then 0 else 2) := by
  obtain ⟨hiff, hcnt, hspawn⟩ := buildargs_summary fe c
  rcases hb : buildargs fe c with ⟨o, evs⟩
  rw [hb] at hiff hcnt hspawn
  cases o with
  | none =>
    simp only [Option.isSome_none, Bool.false_eq_true, false_iff] at hiff
    simp only [Option.isSome_none, if_false, Bool.false_eq_true] at hcnt
    simp [start, hb, startErrorCount, hcnt, hiff, hspawn]
    simp [startErrorCount] at hcnt
    omega
  | some as =>
    simp only [Option.isSome_some, true_iff] at hiff
    simp only [Option.isSome_some, if_true] at hcnt
    simp [start, hb, startErrorCount, hiff, hspawn]
    simp [startErrorCount] at hcnt
    exact hcnt

/-! ### Claim C9 -/

/-- Claim C9 counterexample: a payload that does carry a nonce, namely the
falsy integer 0, still has a fresh nonce generated and echoed in its place. -/
theorem c9_counterexample :
    (handleRequest (some 0) 17 (Except.ok Payload.unitP)).nonce ≠ 0 ∧
    (handleRequest (some 0) 17 (Except.ok Payload.unitP)).nonce = 17 := by decide

/-- Claim C9 (amended): a fresh nonce is generated when the payload carries no
nonce or a falsy (zero) one; any nonzero caller nonce is echoed verbatim, and
each request yields exactly one response, `{nonce, data}` on success and
`{nonce, error}` on failure, so concurrent requests with distinct nonzero
nonces correlate regardless of completion order. -/
theorem c9_request_response (n fresh : Int) (outcome : Except String Payload) (hn : n ≠ 0) :
    (handleRequest (some n) fresh outcome).nonce = n ∧
    (handleRequest none fresh outcome).nonce = fresh ∧
    (handleRequest (some 0) fresh outcome).nonce = fresh ∧
    (∀ p, outcome = Except.ok p →
      handleRequest (some n) fresh outcome = ⟨n, RespBody.dataB p⟩) ∧
    (∀ e, outcome = Except.error e →
      handleRequest (some n) fresh outcome = ⟨n, RespBody.errorB e⟩) := by
  cases outcome <;> simp [handleRequest, effNonce, hn]

/-- Witness for C9: a request with nonce 111 and one with no nonce. -/
theorem c9_request_response_witness :
    (handleRequest (some 111) 7 (Except.ok Payload.unitP)).nonce = 111 ∧
    (handleRequest none 7 (Except.ok Payload.unitP)).nonce = 7 :=
  ⟨(c9_request_response 111 7 (Except.ok Payload.unitP) (by decide)).1,
   (c9_request_response 111 7 (Except.ok Payload.unitP) (by decide)).2.1⟩

end ZumHA
